import Mathlib

/-!
Verification of the IPC tool-execution subsystem of AgentArena
(src/godot/src/agent_arena.cpp, classes `IPCClient` and `ToolRegistry`).

The embedding models Godot `Dictionary` values as association lists over a
JSON-like value type, and the `IPCClient` tool channel as an explicit state
record.  The network exchange is modelled by an event trace: a `submit` event
runs `execute_tool_sync`, a `complete` event runs `_on_tool_request_completed`
with the transport outcome (result code, HTTP status, parsed body), and a
`disconnect` event runs `disconnect_from_server`.  Ghost fields (submission
ids, send/completion/delivery logs) instrument the state so that ordering
properties can be stated; they never influence the computed behaviour.
-/

namespace AgentArena

/-- JSON-like values, modelling the Godot `Variant` shapes that flow through
the tool channel (strings, ints, bools, arrays, dictionaries, null). -/
inductive Val where
  | vnull : Val
  | vbool (b : Bool) : Val
  | vint (n : Int) : Val
  | vstr (s : String) : Val
  | varr (xs : List Val) : Val
  | vdict (d : List (String × Val)) : Val

/-- A Godot `Dictionary`: an insertion-ordered association list. -/
abbrev Dict := List (String × Val)

/-- Lookup, modelling `Dictionary::operator[]` reads / `has`. -/
def dget (d : Dict) (k : String) : Option Val :=
  match d with
  | [] => none
  | (k', v) :: rest => if k' = k then some v else dget rest k

/-- Lookup with default, modelling `Dictionary::get(key, default)`. -/
def dgetD (d : Dict) (k : String) (dflt : Val) : Val :=
  (dget d k).getD dflt

/-- Assignment `d[k] = v`, modelling Godot `Dictionary` writes: an existing
key is updated in place (keeping its position), a new key is appended. -/
def dset (d : Dict) (k : String) (v : Val) : Dict :=
  match d with
  | [] => [(k, v)]
  | (k', v') :: rest => if k' = k then (k, v) :: rest else (k', v') :: dset rest k v

/-- Outward signals emitted by `IPCClient` (Godot `emit_signal`).  The tool
callback only ever emits `response_received`; `connection_failed` is included
to show that no failure signal of any kind leaves the tool path. -/
inductive Signal where
  | responseReceived (response : Dict) : Signal
  | connectionFailed (error : String) : Signal

/-- State of the `IPCClient` tool channel.

Concrete fields mirror the C++ members `is_connected`,
`tool_request_in_progress`, `tool_request_queue`, `current_tool_request`;
`main_request_active` models whether the main `HTTPRequest` node
(`http_request`, used for health checks and tick requests) has an active
request that `cancel_request()` would abort.

Ghost fields: each submission receives a fresh id `nextId`; queue entries are
paired with their id, `current_id` is the id of the in-flight request,
`sentIds` logs ids in the order requests were handed to the transport,
`completedIds` logs ids in the order their completion callbacks were
processed, `deliveredIds` logs ids whose `response_received` notification was
emitted, and `signals` logs every emitted signal. -/
structure IPCState where
  is_connected : Bool
  main_request_active : Bool
  tool_request_in_progress : Bool
  tool_request_queue : List (Nat × Dict)
  current_tool_request : Dict
  current_id : Nat
  nextId : Nat
  sentIds : List Nat
  completedIds : List Nat
  deliveredIds : List Nat
  signals : List Signal

/-- The freshly constructed `IPCClient` (constructor at
agent_arena.cpp:367-375): not connected, no tool request in progress,
empty queue, empty current request dictionary. -/
def initState : IPCState :=
  { is_connected := false
    main_request_active := false
    tool_request_in_progress := false
    tool_request_queue := []
    current_tool_request := []
    current_id := 0
    nextId := 0
    sentIds := []
    completedIds := []
    deliveredIds := []
    signals := [] }

/-- Modelled from the spec: the source calls
`IPCClient::_process_next_tool_request` (agent_arena.cpp:598, 635, 659) but
its definition is absent from src/ (only callers exist; the header does not
declare it either).  Following spec §4.2 `drain_next`: if an exchange is in
flight, no-op; if the queue is empty, no-op; otherwise dequeue the head, make
it the current request, mark in-flight, and initiate the network send (the
send is recorded in the ghost `sentIds` log). -/
def process_next_tool_request (s : IPCState) : IPCState :=
  if s.tool_request_in_progress then s
  else
    match s.tool_request_queue with
    | [] => s
    | (i, r) :: rest =>
      { s with
        tool_request_queue := rest
        current_tool_request := r
        current_id := i
        tool_request_in_progress := true
        sentIds := s.sentIds ++ [i] }

/-- The request dictionary built by `execute_tool_sync`
(agent_arena.cpp:647-651): successive assignments of `tool_name`, `params`,
`agent_id`, `tick` into a fresh dictionary. -/
def mkToolRequest (tool_name : String) (params : Dict) (agent_id : String)
    (tick : Nat) : Dict :=
  dset (dset (dset (dset [] "tool_name" (.vstr tool_name))
    "params" (.vdict params)) "agent_id" (.vstr agent_id)) "tick" (.vint tick)

/-- The immediate acknowledgment dictionary returned by `execute_tool_sync`
(agent_arena.cpp:663-665). -/
def pendingAck : Dict :=
  dset (dset (dset [] "success" (.vbool true)) "result" (.vdict []))
    "note" (.vstr "Tool execution initiated - check response signal")

/-- `IPCClient::execute_tool_sync` (agent_arena.cpp:638-668): build the
request dictionary, append it to the queue (tagging it with the next ghost
id), start processing if no request is in progress, and return the pending
acknowledgment.  The `is_connected` check only prints a warning and does not
affect behaviour. -/
def execute_tool_sync (s : IPCState) (tool_name : String) (params : Dict)
    (agent_id : String) (tick : Nat) : IPCState × Dict :=
  let request_dict := mkToolRequest tool_name params agent_id tick
  let s1 := { s with
    tool_request_queue := s.tool_request_queue ++ [(s.nextId, request_dict)]
    nextId := s.nextId + 1 }
  let s2 := if s1.tool_request_in_progress then s1 else process_next_tool_request s1
  (s2, pendingAck)

/-- Godot `HTTPRequest::RESULT_SUCCESS`. -/
def RESULT_SUCCESS : Int := 0

/-- The response dictionary built on the 200/parsed-dictionary path of
`_on_tool_request_completed` (agent_arena.cpp:614-620): the decoded body
dictionary, then `agent_id`, `tool_name`, `tick` assigned from
`current_tool_request` (with Godot `get` defaults `""`, `""`, `0`). -/
def buildToolResponse (cur : Dict) (d : Dict) : Dict :=
  dset (dset (dset d "agent_id" (dgetD cur "agent_id" (.vstr "")))
    "tool_name" (dgetD cur "tool_name" (.vstr "")))
    "tick" (dgetD cur "tick" (.vint 0))

/-- `IPCClient::_on_tool_request_completed` (agent_arena.cpp:587-636).
`result` and `response_code` are the Godot callback arguments; `body` is the
outcome of `JSON::parse` on the body bytes (`none` when parsing failed,
`some v` when it produced the value `v`).  The callback first clears
`tool_request_in_progress`; on transport failure it immediately processes the
next request; on HTTP 200 with a body that parsed to a dictionary it emits
`response_received` with the context-tagged response; every other outcome
only logs; finally it processes the next request.  Ghost `completedIds`
records the processed completion. -/
def on_tool_request_completed (s : IPCState) (result : Int)
    (response_code : Int) (body : Option Val) : IPCState :=
  let s0 := { s with
    tool_request_in_progress := false
    completedIds := s.completedIds ++ [s.current_id] }
  if result ≠ RESULT_SUCCESS then
    process_next_tool_request s0
  else
    let s1 :=
      if response_code = 200 then
        match body with
        | some (.vdict d) =>
          let tool_response := buildToolResponse s0.current_tool_request d
          { s0 with
            signals := s0.signals ++ [.responseReceived tool_response]
            deliveredIds := s0.deliveredIds ++ [s0.current_id] }
        | _ => s0
      else s0
    process_next_tool_request s1

/-- `IPCClient::disconnect_from_server` (agent_arena.cpp:498-502): clears
`is_connected` and calls `cancel_request()` on the main `http_request` node
(not on `http_request_tool`); nothing else is touched. -/
def disconnect_from_server (s : IPCState) : IPCState :=
  { s with
    is_connected := false
    main_request_active := false }

/-- Events driving the tool channel. -/
inductive Event where
  | submit (tool_name : String) (params : Dict) (agent_id : String)
      (tick : Nat) : Event
  | complete (result : Int) (response_code : Int) (body : Option Val) : Event
  | disconnect : Event

/-- One event step. -/
def stepEv (s : IPCState) : Event → IPCState
  | .submit tool_name params agent_id tick =>
      (execute_tool_sync s tool_name params agent_id tick).1
  | .complete result response_code body =>
      on_tool_request_completed s result response_code body
  | .disconnect => disconnect_from_server s

/-- Run a trace of events. -/
def runTrace (s : IPCState) : List Event → IPCState
  | [] => s
  | e :: tr => runTrace (stepEv s e) tr

/-- Environment contract for one event: the `request_completed` callback of
the transport fires only while a request is actually in flight (Godot fires
it exactly once per issued `request()`).  `submit` and `disconnect` may occur
at any time. -/
def evOk (s : IPCState) : Event → Bool
  | .complete _ _ _ => s.tool_request_in_progress
  | _ => true

/-- A trace every event of which respects the environment contract in the
state where it fires. -/
def validTrace (s : IPCState) : List Event → Bool
  | [] => true
  | e :: tr => evOk s e && validTrace (stepEv s e) tr

/-- Ids of the queued-but-unsent requests, in queue order. -/
def queueIds (s : IPCState) : List Nat := s.tool_request_queue.map Prod.fst

/-- The ghost in-flight slot: the id of the current exchange when one is in
flight, empty otherwise. -/
def inflightIds (s : IPCState) : List Nat :=
  if s.tool_request_in_progress then [s.current_id] else []

/-- Ghost bookkeeping invariant of the tool channel: sent requests followed
by queued requests are exactly the submissions in submission order; the sent
requests are the completed ones followed by the (at most one) in-flight one;
delivered notifications arise from completed exchanges in order. -/
def GhostInv (s : IPCState) : Prop :=
  s.sentIds ++ queueIds s = List.range s.nextId ∧
  s.sentIds = s.completedIds ++ inflightIds s ∧
  s.deliveredIds.Sublist s.completedIds

/-- State of a `ToolRegistry` (agent_arena.cpp:284-361): the schema
dictionary of registered tools and the optional `IPCClient` pointer. -/
structure RegistryState where
  registered_tools : Dict
  ipc_client : Option IPCState

/-- `ToolRegistry::execute_tool` (agent_arena.cpp:334-354): reject unknown
tools, otherwise delegate to `IPCClient::execute_tool_sync` when a client is
available (with the C++ default arguments `agent_id = ""`, `tick = 0`), else
report the missing client. -/
def ToolRegistry.execute_tool (reg : RegistryState) (name : String)
    (params : Dict) : RegistryState × Dict :=
  if (dget reg.registered_tools name).isSome = false then
    (reg, dset (dset [] "success" (.vbool false))
      "error" (.vstr ("Tool not found: " ++ name)))
  else
    match reg.ipc_client with
    | some ipc =>
      let r := execute_tool_sync ipc name params "" 0
      ({ reg with ipc_client := some r.1 }, r.2)
    | none =>
      (reg, dset (dset [] "success" (.vbool false))
        "error" (.vstr "No IPC client available for tool execution"))

/-- Demo trace: one submission whose exchange succeeds with HTTP 200 and
body parsed to a dictionary. -/
def trC1 : List Event :=
  [.submit "search" [("q", .vstr "x")] "agent_1" 5,
   .complete 0 200 (some (.vdict [("result", .vint 42)]))]

/-- Demo trace: one submission. -/
def trC2 : List Event :=
  [.submit "search" [("q", .vstr "x")] "agent_1" 5]

/-- Demo trace: one submission whose exchange fails at the transport level
(Godot result code 4, `RESULT_CANT_CONNECT`). -/
def trC3 : List Event :=
  [.submit "search" [("q", .vstr "x")] "agent_1" 5,
   .complete 4 0 none]

/-- Demo trace: one submission, still in flight. -/
def trC3a : List Event :=
  [.submit "search" [("q", .vstr "x")] "agent_1" 5]

/-- Demo state: one submission in flight, used as a completion context. -/
def sC3w : IPCState :=
  runTrace initState [.submit "search" [("q", .vstr "x")] "agent_1" 5]

/-- Demo state: first submission in flight, second one queued. -/
def sC5 : IPCState :=
  runTrace initState
    [.submit "search" [("q", .vstr "x")] "agent_1" 5,
     .submit "move" [("dx", .vint 1)] "agent_1" 5]

/-- Demo trace: two submissions back-to-back, both exchanges succeeding. -/
def trC6 : List Event :=
  [.submit "search" [("q", .vstr "x")] "agent_1" 5,
   .submit "move" [("dx", .vint 1)] "agent_1" 5,
   .complete 0 200 (some (.vdict [("result", .vint 1)])),
   .complete 0 200 (some (.vdict [("result", .vint 2)]))]

/-- Demo trace: a submission whose exchange fails, then another
submission. -/
def trC7 : List Event :=
  [.submit "search" [("q", .vstr "x")] "agent_1" 5,
   .complete 4 0 none,
   .submit "move" [("dx", .vint 1)] "agent_1" 5]

/-- Demo state: first submission in flight, second one queued, used to
exercise `disconnect_from_server`. -/
def sC8 : IPCState :=
  runTrace initState
    [.submit "search" [("q", .vstr "x")] "agent_1" 5,
     .submit "move" [("dx", .vint 1)] "agent_1" 5]

/-- Demo trace: one submission. -/
def trC9 : List Event :=
  [.submit "search" [("q", .vstr "x")] "agent_1" 5]

/-- Demo payload whose entries collide with the context keys. -/
def dC9 : Dict :=
  [("agent_id", .vstr "spoofed"), ("tool_name", .vstr "bad"),
   ("tick", .vint 99), ("result", .vint 7)]

theorem dget_dset_self (d : Dict) (k : String) (v : Val) :
    dget (dset d k v) k = some v := by
  induction d with
  | nil => simp [dset, dget]
  | cons hd tl ih =>
    obtain ⟨k', v'⟩ := hd
    by_cases h : k' = k
    · simp [dset, dget, h]
    · simp [dset, dget, h, ih]

theorem dget_dset_ne (d : Dict) (k k' : String) (v : Val) (h : k ≠ k') :
    dget (dset d k v) k' = dget d k' := by
  induction d with
  | nil => simp [dset, dget, h]
  | cons hd tl ih =>
    obtain ⟨k₀, v₀⟩ := hd
    by_cases h₀ : k₀ = k
    · subst h₀
      simp [dset, dget, h]
    · by_cases h₁ : k₀ = k'
      · subst h₁
        simp [dset, dget, Ne.symm h]
      · simp [dset, dget, h₀, h₁, ih]

theorem ghostInv_init : GhostInv initState := by
  refine ⟨?_, ?_, ?_⟩ <;> simp [initState, queueIds, inflightIds]

theorem ghostInv_drain {s : IPCState} (h : GhostInv s) :
    GhostInv (process_next_tool_request s) := by
  obtain ⟨h1, h2, h3⟩ := h
  cases hp : s.tool_request_in_progress with
  | true => simpa [process_next_tool_request, hp] using ⟨h1, h2, h3⟩
  | false =>
    cases hq : s.tool_request_queue with
    | nil => simpa [process_next_tool_request, hp, hq] using ⟨h1, h2, h3⟩
    | cons hd tl =>
      obtain ⟨i, r⟩ := hd
      have h2' : s.sentIds = s.completedIds := by
        simpa [inflightIds, hp] using h2
      refine ⟨?_, ?_, ?_⟩
      · show (process_next_tool_request s).sentIds ++
          queueIds (process_next_tool_request s) = _
        simp only [process_next_tool_request, hp, hq, queueIds]
        simp only [Bool.false_eq_true, if_false, List.map_cons, List.append_assoc,
          List.singleton_append]
        simpa [queueIds, hq] using h1
      · show (process_next_tool_request s).sentIds =
          (process_next_tool_request s).completedIds ++ _
        simp [process_next_tool_request, hp, hq, inflightIds, h2']
      · show List.Sublist (process_next_tool_request s).deliveredIds _
        simpa [process_next_tool_request, hp, hq] using h3

theorem ghostInv_submit {s : IPCState} (h : GhostInv s) (tool_name : String)
    (params : Dict) (agent_id : String) (tick : Nat) :
    GhostInv (execute_tool_sync s tool_name params agent_id tick).1 := by
  obtain ⟨h1, h2, h3⟩ := h
  have henq : GhostInv { s with
      tool_request_queue := s.tool_request_queue ++
        [(s.nextId, mkToolRequest tool_name params agent_id tick)]
      nextId := s.nextId + 1 } := by
    refine ⟨?_, ?_, ?_⟩
    · simp only [queueIds, List.map_append, List.map_cons, List.map_nil,
        List.range_succ]
      rw [← List.append_assoc]
      simpa [queueIds] using congrArg (· ++ [s.nextId]) h1
    · simpa [inflightIds] using h2
    · exact h3
  unfold execute_tool_sync
  cases hp : s.tool_request_in_progress with
  | true =>
    rw [hp] at henq
    simpa [hp] using henq
  | false =>
    rw [hp] at henq
    simp only [hp, Bool.false_eq_true, if_false]
    exact ghostInv_drain henq

theorem ghostInv_complete {s : IPCState} (h : GhostInv s)
    (hp : s.tool_request_in_progress = true) (result response_code : Int)
    (body : Option Val) :
    GhostInv (on_tool_request_completed s result response_code body) := by
  obtain ⟨h1, h2, h3⟩ := h
  have h2' : s.sentIds = s.completedIds ++ [s.current_id] := by
    simpa [inflightIds, hp] using h2
  have hmark : GhostInv { s with
      tool_request_in_progress := false
      completedIds := s.completedIds ++ [s.current_id] } := by
    refine ⟨?_, ?_, ?_⟩
    · simpa [queueIds] using h1
    · simpa [inflightIds] using h2'
    · exact h3.trans (List.sublist_append_left _ _)
  unfold on_tool_request_completed
  by_cases hr : result = RESULT_SUCCESS
  · rw [if_neg (not_not_intro hr)]
    by_cases hc : response_code = 200
    · rw [if_pos hc]
      cases body with
      | none => exact ghostInv_drain hmark
      | some v =>
        cases v with
        | vdict d =>
          refine ghostInv_drain ?_
          obtain ⟨g1, g2, g3⟩ := hmark
          refine ⟨?_, ?_, ?_⟩
          · simpa [queueIds] using g1
          · simpa [inflightIds] using g2
          · exact h3.append (List.Sublist.refl _)
        | vnull => exact ghostInv_drain hmark
        | vbool b => exact ghostInv_drain hmark
        | vint n => exact ghostInv_drain hmark
        | vstr t => exact ghostInv_drain hmark
        | varr xs => exact ghostInv_drain hmark
    · rw [if_neg hc]
      exact ghostInv_drain hmark
  · rw [if_pos hr]
    exact ghostInv_drain hmark

theorem ghostInv_disconnect {s : IPCState} (h : GhostInv s) :
    GhostInv (disconnect_from_server s) := by
  obtain ⟨h1, h2, h3⟩ := h
  exact ⟨by simpa [disconnect_from_server, queueIds] using h1,
    by simpa [disconnect_from_server, inflightIds] using h2,
    by simpa [disconnect_from_server] using h3⟩

theorem ghostInv_step {s : IPCState} {e : Event} (h : GhostInv s)
    (hok : evOk s e = true) : GhostInv (stepEv s e) := by
  cases e with
  | submit tool_name params agent_id tick =>
    exact ghostInv_submit h tool_name params agent_id tick
  | complete result response_code body =>
    exact ghostInv_complete h (by simpa [evOk] using hok) result response_code body
  | disconnect => exact ghostInv_disconnect h

theorem ghostInv_run {s : IPCState} {tr : List Event} (h : GhostInv s)
    (hv : validTrace s tr = true) : GhostInv (runTrace s tr) := by
  induction tr generalizing s with
  | nil => simpa [runTrace] using h
  | cons e tr ih =>
    rw [validTrace, Bool.and_eq_true] at hv
    exact ih (ghostInv_step h hv.1) hv.2

theorem process_next_signals (s : IPCState) :
    (process_next_tool_request s).signals = s.signals := by
  cases hp : s.tool_request_in_progress with
  | true => simp [process_next_tool_request, hp]
  | false =>
    cases hq : s.tool_request_queue with
    | nil => simp [process_next_tool_request, hp, hq]
    | cons hd tl =>
      obtain ⟨i, r⟩ := hd
      simp [process_next_tool_request, hp, hq]

/-- When the in-flight flag is clear, draining with a non-empty queue sends
its head and with an empty queue does nothing. -/
theorem process_next_cleared (s : IPCState)
    (hp : s.tool_request_in_progress = false) :
    (∀ i r rest, s.tool_request_queue = (i, r) :: rest →
      process_next_tool_request s = { s with
        tool_request_queue := rest
        current_tool_request := r
        current_id := i
        tool_request_in_progress := true
        sentIds := s.sentIds ++ [i] }) ∧
    (s.tool_request_queue = [] → process_next_tool_request s = s) := by
  constructor
  · intro i r rest hq
    simp [process_next_tool_request, hp, hq]
  · intro hq
    simp [process_next_tool_request, hp, hq]

/-- Every branch of the completion callback first clears the in-flight flag
and then drains: the result is `process_next_tool_request` of a state with
the flag cleared, the queue untouched, the send log untouched, and the
completion logged. -/
theorem on_complete_exists_cleared (s : IPCState) (result response_code : Int)
    (body : Option Val) :
    ∃ t : IPCState,
      on_tool_request_completed s result response_code body =
        process_next_tool_request t ∧
      t.tool_request_in_progress = false ∧
      t.tool_request_queue = s.tool_request_queue ∧
      t.sentIds = s.sentIds ∧
      t.completedIds = s.completedIds ++ [s.current_id] := by
  unfold on_tool_request_completed
  by_cases hr : result = RESULT_SUCCESS
  · rw [if_neg (not_not_intro hr)]
    by_cases hc : response_code = 200
    · rw [if_pos hc]
      cases body with
      | none => exact ⟨_, rfl, rfl, rfl, rfl, rfl⟩
      | some v =>
        cases v with
        | vdict d => exact ⟨_, rfl, rfl, rfl, rfl, rfl⟩
        | vnull => exact ⟨_, rfl, rfl, rfl, rfl, rfl⟩
        | vbool b => exact ⟨_, rfl, rfl, rfl, rfl, rfl⟩
        | vint n => exact ⟨_, rfl, rfl, rfl, rfl, rfl⟩
        | vstr t => exact ⟨_, rfl, rfl, rfl, rfl, rfl⟩
        | varr xs => exact ⟨_, rfl, rfl, rfl, rfl, rfl⟩
    · rw [if_neg hc]
      exact ⟨_, rfl, rfl, rfl, rfl, rfl⟩
  · rw [if_pos hr]
    exact ⟨_, rfl, rfl, rfl, rfl, rfl⟩

/-- On the success path (transport success, HTTP 200, body parsed to a
dictionary) the callback emits exactly one `response_received` signal
carrying the context-tagged response. -/
theorem on_complete_success_signals (s : IPCState) (d : Dict) :
    (on_tool_request_completed s RESULT_SUCCESS 200 (some (.vdict d))).signals =
      s.signals ++
        [.responseReceived (buildToolResponse s.current_tool_request d)] := by
  unfold on_tool_request_completed
  rw [if_neg (not_not_intro rfl), if_pos rfl]
  rw [process_next_signals]

theorem buildToolResponse_agent_id (cur d : Dict) :
    dget (buildToolResponse cur d) "agent_id" =
      some (dgetD cur "agent_id" (.vstr "")) := by
  unfold buildToolResponse
  rw [dget_dset_ne _ _ _ _ (by decide), dget_dset_ne _ _ _ _ (by decide),
    dget_dset_self]

theorem buildToolResponse_tool_name (cur d : Dict) :
    dget (buildToolResponse cur d) "tool_name" =
      some (dgetD cur "tool_name" (.vstr "")) := by
  unfold buildToolResponse
  rw [dget_dset_ne _ _ _ _ (by decide), dget_dset_self]

theorem buildToolResponse_tick (cur d : Dict) :
    dget (buildToolResponse cur d) "tick" =
      some (dgetD cur "tick" (.vint 0)) := by
  unfold buildToolResponse
  rw [dget_dset_self]

theorem buildToolResponse_other (cur d : Dict) (k : String)
    (h₁ : k ≠ "agent_id") (h₂ : k ≠ "tool_name") (h₃ : k ≠ "tick") :
    dget (buildToolResponse cur d) k = dget d k := by
  unfold buildToolResponse
  rw [dget_dset_ne _ _ _ _ (Ne.symm h₃), dget_dset_ne _ _ _ _ (Ne.symm h₂),
    dget_dset_ne _ _ _ _ (Ne.symm h₁)]

/-- C1: At-most-one-in-flight.  Along every valid trace of submissions,
exchange completions and disconnects from the initial state, the requests
handed to the transport are exactly the completed ones followed by the at
most one in-flight request (`tool_request_in_progress`), so at no instant
are two tool exchanges simultaneously in flight: `execute_tool_sync` only
triggers a send when the flag is clear and only the completion callback
clears it. -/
theorem at_most_one_in_flight (tr : List Event)
    (hv : validTrace initState tr = true) :
    (runTrace initState tr).sentIds =
      (runTrace initState tr).completedIds ++
        inflightIds (runTrace initState tr) ∧
    (runTrace initState tr).sentIds.length ≤
      (runTrace initState tr).completedIds.length + 1 := by
  obtain ⟨h1, h2, h3⟩ := ghostInv_run ghostInv_init hv
  refine ⟨h2, ?_⟩
  rw [h2, List.length_append]
  have hle : (inflightIds (runTrace initState tr)).length ≤ 1 := by
    unfold inflightIds
    cases hp : (runTrace initState tr).tool_request_in_progress <;> simp [hp]
  omega

theorem at_most_one_in_flight_witness :
    validTrace initState trC1 = true ∧
    (runTrace initState trC1).sentIds.length ≤
      (runTrace initState trC1).completedIds.length + 1 :=
  ⟨rfl, (at_most_one_in_flight trC1 rfl).2⟩

/-- C2: Context fidelity on success.  When an exchange completes with
transport success, HTTP 200 and a body parsed to a dictionary `d`, the
callback emits one `response_received` notification whose payload carries
`agent_id`, `tool_name`, `tick` exactly equal to those of the originating
request and every other entry of `d` unchanged. -/
theorem context_fidelity_success (s : IPCState) (tool_name : String)
    (params : Dict) (agent_id : String) (tick : Nat) (d : Dict)
    (hcur : s.current_tool_request =
      mkToolRequest tool_name params agent_id tick) :
    (on_tool_request_completed s RESULT_SUCCESS 200 (some (.vdict d))).signals =
      s.signals ++
        [.responseReceived (buildToolResponse s.current_tool_request d)] ∧
    dget (buildToolResponse s.current_tool_request d) "agent_id" =
      some (.vstr agent_id) ∧
    dget (buildToolResponse s.current_tool_request d) "tool_name" =
      some (.vstr tool_name) ∧
    dget (buildToolResponse s.current_tool_request d) "tick" =
      some (.vint tick) ∧
    ∀ k, k ≠ "agent_id" → k ≠ "tool_name" → k ≠ "tick" →
      dget (buildToolResponse s.current_tool_request d) k = dget d k := by
  refine ⟨on_complete_success_signals s d, ?_, ?_, ?_, ?_⟩
  · rw [buildToolResponse_agent_id, hcur]
    rfl
  · rw [buildToolResponse_tool_name, hcur]
    rfl
  · rw [buildToolResponse_tick, hcur]
    rfl
  · intro k h₁ h₂ h₃
    exact buildToolResponse_other _ _ k h₁ h₂ h₃

theorem context_fidelity_success_witness :
    dget (buildToolResponse (runTrace initState trC2).current_tool_request
        [("result", Val.vint 42)]) "result" = some (Val.vint 42) ∧
    dget (buildToolResponse (runTrace initState trC2).current_tool_request
        [("result", Val.vint 42)]) "agent_id" = some (Val.vstr "agent_1") := by
  have h := context_fidelity_success (runTrace initState trC2) "search"
    [("q", Val.vstr "x")] "agent_1" 5 [("result", Val.vint 42)] rfl
  refine ⟨?_, h.2.1⟩
  rw [h.2.2.2.2 "result" (by decide) (by decide) (by decide)]
  rfl

/-- C3 counterexample: a submitted request is sent, its exchange ends in a
transport failure (Godot result 4), the completion is processed — and the
signal log stays empty: the caller receives no failure notification of any
kind, so not every submitted request yields an outward notification. -/
theorem failure_notification_counterexample :
    (runTrace initState trC3a).tool_request_in_progress = true ∧
    (runTrace initState trC3).completedIds = [0] ∧
    (runTrace initState trC3).signals = [] :=
  ⟨rfl, rfl, rfl⟩

/-- C3 amended: on a transport failure, a non-200 status, or a body that is
unparseable or not a dictionary, the completion callback emits no outward
notification at all (it only logs and drains the next request); only the
success path emits a `response_received` notification, so each submitted
request yields at most one — not exactly one — outward notification. -/
theorem failure_paths_emit_no_signal (s : IPCState) (result response_code : Int)
    (body : Option Val) :
    (result ≠ RESULT_SUCCESS →
      (on_tool_request_completed s result response_code body).signals =
        s.signals) ∧
    (response_code ≠ 200 →
      (on_tool_request_completed s result response_code body).signals =
        s.signals) ∧
    ((∀ d : Dict, body ≠ some (.vdict d)) →
      (on_tool_request_completed s result response_code body).signals =
        s.signals) ∧
    (result = RESULT_SUCCESS → response_code = 200 →
      ∀ d : Dict, body = some (.vdict d) →
        (on_tool_request_completed s result response_code body).signals =
          s.signals ++
            [.responseReceived (buildToolResponse s.current_tool_request d)]) := by
  refine ⟨?_, ?_, ?_, ?_⟩
  · intro hr
    unfold on_tool_request_completed
    rw [if_pos hr, process_next_signals]
  · intro hc
    unfold on_tool_request_completed
    by_cases hr : result = RESULT_SUCCESS
    · rw [if_neg (not_not_intro hr), if_neg hc, process_next_signals]
    · rw [if_pos hr, process_next_signals]
  · intro hb
    unfold on_tool_request_completed
    by_cases hr : result = RESULT_SUCCESS
    · rw [if_neg (not_not_intro hr)]
      by_cases hc : response_code = 200
      · rw [if_pos hc]
        cases body with
        | none => rw [process_next_signals]
        | some v =>
          cases v with
          | vdict d => exact absurd rfl (hb d)
          | vnull => rw [process_next_signals]
          | vbool b => rw [process_next_signals]
          | vint n => rw [process_next_signals]
          | vstr t => rw [process_next_signals]
          | varr xs => rw [process_next_signals]
      · rw [if_neg hc, process_next_signals]
    · rw [if_pos hr, process_next_signals]
  · intro hr hc d hb
    subst hr
    subst hc
    subst hb
    exact on_complete_success_signals s d

theorem failure_paths_emit_no_signal_witness :
    (on_tool_request_completed sC3w 4 0 none).signals = sC3w.signals ∧
    (on_tool_request_completed sC3w 0 500 (some (Val.vdict []))).signals =
      sC3w.signals :=
  ⟨(failure_paths_emit_no_signal sC3w 4 0 none).1 (by decide),
   (failure_paths_emit_no_signal sC3w 0 500 (some (Val.vdict []))).2.1
     (by decide)⟩

/-- C4: Submit is non-blocking and always accepted.  For every state
(connected or not) and every arguments, `execute_tool_sync` returns the
pending acknowledgment (`success = true` with the asynchronous-result note)
without waiting for any remote result, appends the request at the queue
tail, and — when no exchange is in flight — immediately drains; in
particular from an idle state with an empty queue the new request is sent at
once. -/
theorem execute_tool_sync_spec (s : IPCState) (tool_name : String)
    (params : Dict) (agent_id : String) (tick : Nat) :
    (execute_tool_sync s tool_name params agent_id tick).2 = pendingAck ∧
    dget (execute_tool_sync s tool_name params agent_id tick).2 "success" =
      some (.vbool true) ∧
    dget (execute_tool_sync s tool_name params agent_id tick).2 "note" =
      some (.vstr "Tool execution initiated - check response signal") ∧
    (s.tool_request_in_progress = true →
      (execute_tool_sync s tool_name params agent_id tick).1 =
        { s with
          tool_request_queue := s.tool_request_queue ++
            [(s.nextId, mkToolRequest tool_name params agent_id tick)]
          nextId := s.nextId + 1 }) ∧
    (s.tool_request_in_progress = false →
      (execute_tool_sync s tool_name params agent_id tick).1 =
        process_next_tool_request { s with
          tool_request_queue := s.tool_request_queue ++
            [(s.nextId, mkToolRequest tool_name params agent_id tick)]
          nextId := s.nextId + 1 }) ∧
    (s.tool_request_in_progress = false → s.tool_request_queue = [] →
      (execute_tool_sync s tool_name params agent_id tick).1.sentIds =
        s.sentIds ++ [s.nextId] ∧
      (execute_tool_sync s tool_name params agent_id
        tick).1.tool_request_in_progress = true) := by
  refine ⟨rfl, rfl, rfl, ?_, ?_, ?_⟩
  · intro hp
    simp [execute_tool_sync, hp]
  · intro hp
    simp [execute_tool_sync, hp]
  · intro hp hq
    constructor <;>
      simp [execute_tool_sync, hp, hq, process_next_tool_request]

theorem execute_tool_sync_spec_witness :
    (execute_tool_sync initState "search" [("q", Val.vstr "x")]
      "agent_1" 5).1.sentIds = [0] ∧
    dget (execute_tool_sync initState "search" [("q", Val.vstr "x")]
      "agent_1" 5).2 "success" = some (Val.vbool true) := by
  have h := execute_tool_sync_spec initState "search" [("q", Val.vstr "x")]
    "agent_1" 5
  refine ⟨?_, h.2.1⟩
  have h6 := (h.2.2.2.2.2 rfl rfl).1
  simpa [initState] using h6

/-- C5: Self-healing.  Whatever the outcome of a completed exchange
(transport failure, non-200 status, decode failure or success), the
completion callback clears the in-flight flag and drains: if the queue is
non-empty its head is sent immediately (it becomes the current in-flight
request), and if the queue is empty the channel is left idle — no outcome
wedges the channel. -/
theorem completion_self_healing (s : IPCState) (result response_code : Int)
    (body : Option Val) :
    (∀ i r rest, s.tool_request_queue = (i, r) :: rest →
      (on_tool_request_completed s result response_code body).sentIds =
        s.sentIds ++ [i] ∧
      (on_tool_request_completed s result response_code
        body).tool_request_in_progress = true ∧
      (on_tool_request_completed s result response_code
        body).tool_request_queue = rest ∧
      (on_tool_request_completed s result response_code
        body).current_tool_request = r) ∧
    (s.tool_request_queue = [] →
      (on_tool_request_completed s result response_code
        body).tool_request_in_progress = false ∧
      (on_tool_request_completed s result response_code
        body).tool_request_queue = []) := by
  obtain ⟨t, heq, hp, hq, hs, hc⟩ :=
    on_complete_exists_cleared s result response_code body
  constructor
  · intro i r rest hqs
    have hdr := (process_next_cleared t hp).1 i r rest (hq.trans hqs)
    rw [heq, hdr]
    exact ⟨by rw [hs], rfl, rfl, rfl⟩
  · intro hqs
    have hdr := (process_next_cleared t hp).2 (hq.trans hqs)
    rw [heq, hdr]
    exact ⟨hp, hq.trans hqs⟩

theorem completion_self_healing_witness :
    (on_tool_request_completed sC5 4 0 none).sentIds = sC5.sentIds ++ [1] ∧
    (on_tool_request_completed sC5 4 0 none).tool_request_in_progress =
      true := by
  have h := (completion_self_healing sC5 4 0 none).1 1
    (mkToolRequest "move" [("dx", Val.vint 1)] "agent_1" 5) [] rfl
  exact ⟨h.1, h.2.1⟩

/-- C6: FIFO delivery.  Along every valid trace, the ghost submission ids of
the sent requests form an initial segment of the naturals in submission
order (only the queue head is ever dequeued for sending), and the ids of the
delivered `response_received` notifications are strictly increasing: a
request submitted earlier is sent earlier and its notification is delivered
earlier. -/
theorem fifo_delivery (tr : List Event)
    (hv : validTrace initState tr = true) :
    (runTrace initState tr).sentIds =
      List.range (runTrace initState tr).sentIds.length ∧
    List.Pairwise (· < ·) (runTrace initState tr).deliveredIds := by
  obtain ⟨h1, h2, h3⟩ := ghostInv_run ghostInv_init hv
  have hlen : (runTrace initState tr).sentIds.length ≤
      (runTrace initState tr).nextId := by
    have hl := congrArg List.length h1
    simp only [List.length_append, List.length_range] at hl
    omega
  have hsent : (runTrace initState tr).sentIds =
      List.range (runTrace initState tr).sentIds.length := by
    have htake : ((runTrace initState tr).sentIds ++
        queueIds (runTrace initState tr)).take
          (runTrace initState tr).sentIds.length =
        (runTrace initState tr).sentIds := List.take_left _ _
    rw [h1, List.take_range, Nat.min_eq_left hlen] at htake
    exact htake.symm
  refine ⟨hsent, ?_⟩
  have hcs : List.Sublist (runTrace initState tr).completedIds
      (runTrace initState tr).sentIds := by
    rw [h2]
    exact List.sublist_append_left _ _
  have hpw : List.Pairwise (· < ·) (runTrace initState tr).sentIds := by
    rw [hsent]
    exact List.pairwise_lt_range _
  exact List.Pairwise.sublist (h3.trans hcs) hpw

theorem fifo_delivery_witness :
    validTrace initState trC6 = true ∧
    List.Pairwise (· < ·) (runTrace initState trC6).deliveredIds ∧
    (runTrace initState trC6).deliveredIds = [0, 1] :=
  ⟨rfl, (fifo_delivery trC6 rfl).2, rfl⟩

/-- C7: No double-send.  Along every valid trace, the ghost submission ids
of the sent requests together with those still queued contain no duplicate:
every enqueued request is sent at most once, a failed or completed request
is never re-enqueued, and nothing is both sent and still pending. -/
theorem no_double_send (tr : List Event)
    (hv : validTrace initState tr = true) :
    ((runTrace initState tr).sentIds ++
      queueIds (runTrace initState tr)).Nodup := by
  obtain ⟨h1, h2, h3⟩ := ghostInv_run ghostInv_init hv
  rw [h1]
  exact List.nodup_range _

theorem no_double_send_witness :
    ((runTrace initState trC7).sentIds ++
      queueIds (runTrace initState trC7)).Nodup :=
  no_double_send trC7 rfl

/-- C8 counterexample: with one tool exchange in flight and another request
queued, `disconnect_from_server` leaves the in-flight flag set, leaves the
queued request in the queue, and the in-flight exchange's completion still
delivers its `response_received` notification — refuting that disconnecting
abandons the in-flight tool exchange, suppresses its result, and drops
queued requests. -/
theorem disconnect_counterexample :
    (disconnect_from_server sC8).tool_request_in_progress = true ∧
    (disconnect_from_server sC8).tool_request_queue.length = 1 ∧
    (on_tool_request_completed (disconnect_from_server sC8) 0 200
      (some (Val.vdict [("result", Val.vint 42)]))).signals.length = 1 :=
  ⟨rfl, rfl, rfl⟩

/-- C8 amended: `disconnect_from_server` only clears `is_connected` and
cancels the main `HTTPRequest` node (the health/tick one, `http_request`);
it does not touch the tool channel: the tool exchange is not cancelled, the
current request and in-flight flag are unchanged, the queued tool requests
remain, and a later completion of the in-flight exchange still delivers its
notification. -/
theorem disconnect_spec (s : IPCState) :
    (disconnect_from_server s).is_connected = false ∧
    (disconnect_from_server s).main_request_active = false ∧
    (disconnect_from_server s).tool_request_queue = s.tool_request_queue ∧
    (disconnect_from_server s).tool_request_in_progress =
      s.tool_request_in_progress ∧
    (disconnect_from_server s).current_tool_request =
      s.current_tool_request ∧
    (disconnect_from_server s).signals = s.signals :=
  ⟨rfl, rfl, rfl, rfl, rfl, rfl⟩

/-- C9: Context keys shadow payload keys.  When the decoded remote payload
itself contains entries named `agent_id`, `tool_name` or `tick`, the
delivered response carries the originating request's values for those keys
(looked up in `current_tool_request`), overwriting the remote-supplied ones,
because the context assignment happens after the decoded dictionary is
copied into the response. -/
theorem context_shadows_payload (s : IPCState) (d : Dict) (w₁ w₂ w₃ : Val)
    (h₁ : dget d "agent_id" = some w₁) (h₂ : dget d "tool_name" = some w₂)
    (h₃ : dget d "tick" = some w₃) :
    dget (buildToolResponse s.current_tool_request d) "agent_id" =
      some (dgetD s.current_tool_request "agent_id" (.vstr "")) ∧
    dget (buildToolResponse s.current_tool_request d) "tool_name" =
      some (dgetD s.current_tool_request "tool_name" (.vstr "")) ∧
    dget (buildToolResponse s.current_tool_request d) "tick" =
      some (dgetD s.current_tool_request "tick" (.vint 0)) ∧
    (on_tool_request_completed s RESULT_SUCCESS 200 (some (.vdict d))).signals =
      s.signals ++
        [.responseReceived (buildToolResponse s.current_tool_request d)] :=
  ⟨buildToolResponse_agent_id _ _, buildToolResponse_tool_name _ _,
   buildToolResponse_tick _ _, on_complete_success_signals s d⟩

theorem context_shadows_payload_witness :
    dget (buildToolResponse (runTrace initState trC9).current_tool_request
      dC9) "agent_id" = some (Val.vstr "agent_1") ∧
    dget dC9 "agent_id" = some (Val.vstr "spoofed") := by
  have h := context_shadows_payload (runTrace initState trC9) dC9
    (Val.vstr "spoofed") (Val.vstr "bad") (Val.vint 99) rfl rfl rfl
  refine ⟨?_, rfl⟩
  rw [h.1]
  rfl

/-- C10: Unregistered tools never reach the queue.  For every tool name not
present in `registered_tools`, `ToolRegistry::execute_tool` returns
`success = false` with an error naming the tool, without calling the IPC
client and without modifying the registry or any channel state; likewise,
when no IPC client is set the call fails without touching any state. -/
theorem registry_rejects_unregistered (reg : RegistryState) (name : String)
    (params : Dict) :
    (dget reg.registered_tools name = none →
      (ToolRegistry.execute_tool reg name params).1 = reg ∧
      dget (ToolRegistry.execute_tool reg name params).2 "success" =
        some (.vbool false) ∧
      dget (ToolRegistry.execute_tool reg name params).2 "error" =
        some (.vstr ("Tool not found: " ++ name))) ∧
    (reg.ipc_client = none →
      (ToolRegistry.execute_tool reg name params).1 = reg ∧
      dget (ToolRegistry.execute_tool reg name params).2 "success" =
        some (.vbool false)) := by
  constructor
  · intro h
    have heq : ToolRegistry.execute_tool reg name params =
        (reg, dset (dset [] "success" (.vbool false))
          "error" (.vstr ("Tool not found: " ++ name))) := by
      simp [ToolRegistry.execute_tool, h]
    rw [heq]
    exact ⟨rfl, rfl, rfl⟩
  · intro h
    cases hfound : dget reg.registered_tools name with
    | none =>
      have heq : ToolRegistry.execute_tool reg name params =
          (reg, dset (dset [] "success" (.vbool false))
            "error" (.vstr ("Tool not found: " ++ name))) := by
        simp [ToolRegistry.execute_tool, hfound]
      rw [heq]
      exact ⟨rfl, rfl⟩
    | some sch =>
      have heq : ToolRegistry.execute_tool reg name params =
          (reg, dset (dset [] "success" (.vbool false))
            "error" (.vstr "No IPC client available for tool execution")) := by
        simp [ToolRegistry.execute_tool, hfound, h]
      rw [heq]
      exact ⟨rfl, rfl⟩

theorem registry_rejects_unregistered_witness :
    (ToolRegistry.execute_tool ⟨[], none⟩ "foo" []).1 = ⟨[], none⟩ ∧
    dget (ToolRegistry.execute_tool ⟨[], none⟩ "foo" []).2 "error" =
      some (Val.vstr ("Tool not found: " ++ "foo")) := by
  have h := (registry_rejects_unregistered ⟨[], none⟩ "foo" []).1 rfl
  exact ⟨h.1, h.2.2⟩

end AgentArena
